import Mathlib

/-!
Shallow embedding of the core of the `reddit-mcp` server: the OAuth2
authentication handler (`RedditAuth`), the token-bucket rate limiter
(`RateLimiter`), and the error classifier / retry helper
(`parseRedditError`, `retryWithBackoff`).

Times are integer (milliseconds, `Date.now()` style) for the auth manager
and rational for the rate limiter (JavaScript numbers modelled as exact
rationals).  Network calls are modelled as oracle inputs: each operation
that would issue an HTTP request takes the would-be outcome of that
request as an explicit argument, and returns the list of requests it
actually issued alongside its result and the updated state.
-/

namespace RedditMcp

/-- Truthiness of an optional string, as JavaScript evaluates `if (x)` on a
`string | null | undefined` value: `null`, `undefined` and the empty string
are falsy. -/
def truthy : Option String → Bool
  | none => false
  | some s => !s.isEmpty

/-- JavaScript `a || b` on an optional string `a` and a string default `b`:
yields `b` when `a` is absent or empty. -/
def jsOr (a : Option String) (b : String) : String :=
  match a with
  | some s => if s.isEmpty then b else s
  | none => b

/-- JavaScript `x || null` on an optional string: an empty string collapses
to `null`. -/
def jsOrNone : Option String → Option String
  | some s => if s.isEmpty then none else some s
  | none => none

/-- The `unknown` value caught by the error handler, restricted to what the
classifier inspects: an `AxiosError` (optional response status, optional
`retry-after` response header, optional `data.message` of the response body,
and the error's own `message`), a plain `Error`, or any other thrown value. -/
inductive CaughtError where
  | axiosErr (status : Option Nat) (retryAfterHeader : Option String)
      (dataMessage : Option String) (message : String)
  | plainError (message : String)
  | nonError
deriving DecidableEq

/-- The `RedditAPIError` class hierarchy flattened into one record: `name`
is the subclass name (`Error.name` as each constructor sets it), and
`retryAfter` is the extra field carried by `RateLimitError` (`none`
elsewhere, and also standing for `NaN` on an unparsable header). -/
structure RedditAPIError where
  name : String
  message : String
  statusCode : Option Nat
  errorCode : Option String
  details : Option String
  retryAfter : Option Int
deriving DecidableEq

/-- `new RedditAPIError(message, statusCode?, errorCode?, details?)`. -/
def mkRedditAPIError (message : String) (statusCode : Option Nat)
    (errorCode : Option String) (details : Option String) : RedditAPIError :=
  { name := "RedditAPIError", message := message, statusCode := statusCode,
    errorCode := errorCode, details := details, retryAfter := none }

/-- `new AuthenticationError(message)`. -/
def AuthenticationError (message : String) : RedditAPIError :=
  { name := "AuthenticationError", message := message, statusCode := some 401,
    errorCode := some "AUTHENTICATION_FAILED", details := none, retryAfter := none }

/-- `new ForbiddenError(message)`. -/
def ForbiddenError (message : String) : RedditAPIError :=
  { name := "ForbiddenError", message := message, statusCode := some 403,
    errorCode := some "FORBIDDEN", details := none, retryAfter := none }

/-- `new NotFoundError(message)`. -/
def NotFoundError (message : String) : RedditAPIError :=
  { name := "NotFoundError", message := message, statusCode := some 404,
    errorCode := some "NOT_FOUND", details := none, retryAfter := none }

/-- `new RateLimitError(message, retryAfter)`; `retryAfter = none` models a
`NaN` value. -/
def RateLimitError (message : String) (retryAfter : Option Int) : RedditAPIError :=
  { name := "RateLimitError", message := message, statusCode := some 429,
    errorCode := some "RATE_LIMIT_EXCEEDED", details := none, retryAfter := retryAfter }

/-- Characters JavaScript `parseInt` skips as leading whitespace (the common
ASCII ones suffice for header values). -/
def jsWhitespace (c : Char) : Bool :=
  c = ' ' || c = '\t' || c = '\n' || c = '\r'

/-- Split an optional leading sign off a character list: `true` marks a
minus sign. -/
def parseSign (l : List Char) : Bool × List Char :=
  match l with
  | [] => (false, [])
  | c :: cs =>
    if c = '-' then (true, cs)
    else if c = '+' then (false, cs)
    else (false, c :: cs)

/-- Accumulate a run of decimal digits, most significant first. -/
def digitsToNat (l : List Char) : Nat :=
  l.foldl (fun n c => n * 10 + (c.toNat - '0'.toNat)) 0

/-- The digit run `parseInt` consumes: drop leading whitespace and an
optional sign, then take the maximal run of decimal digits. -/
def jsDigitRun (s : String) : List Char :=
  (parseSign (s.data.dropWhile jsWhitespace)).2.takeWhile Char.isDigit

/-- Whether `parseInt` saw a minus sign. -/
def jsNegative (s : String) : Bool :=
  (parseSign (s.data.dropWhile jsWhitespace)).1

/-- Model of JavaScript `parseInt(s, 10)`: skip leading whitespace, read an
optional sign, then a maximal run of decimal digits; no digits at all gives
`NaN`, modelled as `none`. -/
def jsParseInt (s : String) : Option Int :=
  if (jsDigitRun s).isEmpty then none
  else if jsNegative s then some (-(digitsToNat (jsDigitRun s) : Int))
  else some (digitsToNat (jsDigitRun s) : Int)

/-- Render the `retryAfter` value inside the rate-limit error message the
way JavaScript template interpolation would. -/
def retryAfterText : Option Int → String
  | some n => toString n
  | none => "NaN"

/-- `parseRedditError(error)` from the error handler: classify a caught
value by the HTTP status of its response, defaulting messages with `||`. -/
def parseRedditError : CaughtError → RedditAPIError
  | .axiosErr status hdr dataMsg msg =>
    if status = some 401 then
      AuthenticationError (jsOr dataMsg "Authentication failed. Please check your credentials.")
    else if status = some 403 then
      ForbiddenError (jsOr dataMsg "Access forbidden. You may not have permission to access this resource.")
    else if status = some 404 then
      NotFoundError (jsOr dataMsg "Resource not found.")
    else if status = some 429 then
      let retryAfter := jsParseInt (jsOr hdr "60")
      RateLimitError
        ("Rate limit exceeded. Retry after " ++ retryAfterText retryAfter ++ " seconds.")
        retryAfter
    else if status = some 500 ∨ status = some 502 ∨ status = some 503 ∨ status = some 504 then
      mkRedditAPIError "Reddit API is currently unavailable. Please try again later."
        status (some "SERVICE_UNAVAILABLE") none
    else
      mkRedditAPIError (jsOr dataMsg (jsOr (some msg) "An unknown error occurred"))
        status (some "UNKNOWN_ERROR") dataMsg
  | .plainError msg => mkRedditAPIError msg none none none
  | .nonError => mkRedditAPIError "An unknown error occurred" none none none

/-! ## The OAuth2 authentication handler (`RedditAuth`) -/

/-- The configuration record handed to the `RedditAuth` constructor
(credential fields only; the HTTP plumbing fields are not inspected by the
modelled logic beyond construction). -/
structure RedditConfig where
  clientId : String
  clientSecret : String
  userAgent : String
  username : Option String
  password : Option String
  refreshToken : Option String
deriving DecidableEq

/-- Body of a successful `POST /api/v1/access_token` response. -/
structure RedditAuthResponse where
  access_token : String
  expires_in : Nat
  refresh_token : Option String
deriving DecidableEq

/-- Mutable fields of a `RedditAuth` instance. -/
structure AuthState where
  accessToken : Option String
  refreshToken : Option String
  tokenExpiry : Int
deriving DecidableEq

/-- Network requests an auth operation can issue. -/
inductive AuthCall where
  | passwordGrant
  | refreshGrant
  | revoke
deriving DecidableEq

/-- The `RedditAuth` constructor: no access token, expiry 0, refresh token
taken from the configuration via `config.refreshToken || null`. -/
def RedditAuth.init (config : RedditConfig) : AuthState :=
  { accessToken := none, refreshToken := jsOrNone config.refreshToken, tokenExpiry := 0 }

/-- `handleAuthResponse(data)`: store the access token and its absolute
expiry (`now + expires_in * 1000`); overwrite the refresh token only when
the response carries a truthy one.  Returns the new access token. -/
def handleAuthResponse (s : AuthState) (now : Int) (data : RedditAuthResponse) :
    String × AuthState :=
  let s1 : AuthState :=
    { s with accessToken := some data.access_token,
             tokenExpiry := now + (data.expires_in : Int) * 1000 }
  let s2 : AuthState :=
    if truthy data.refresh_token then { s1 with refreshToken := data.refresh_token } else s1
  (data.access_token, s2)

/-- `authenticateWithPassword()`: guard on truthy username and password,
then issue the password-grant request (whose outcome is the oracle `net`);
a transport failure is normalized through `parseRedditError`. -/
def authenticateWithPassword (config : RedditConfig) (s : AuthState) (now : Int)
    (net : Except CaughtError RedditAuthResponse) :
    Except RedditAPIError String × AuthState × List AuthCall :=
  if truthy config.username && truthy config.password then
    match net with
    | .ok data =>
      let r := handleAuthResponse s now data
      (.ok r.1, r.2, [.passwordGrant])
    | .error e => (.error (parseRedditError e), s, [.passwordGrant])
  else
    (.error (AuthenticationError "Username and password are required for script authentication"),
      s, [])

/-- `authenticateWithRefreshToken()`: guard on a truthy stored refresh
token, then issue the refresh-grant request. -/
def authenticateWithRefreshToken (s : AuthState) (now : Int)
    (net : Except CaughtError RedditAuthResponse) :
    Except RedditAPIError String × AuthState × List AuthCall :=
  if truthy s.refreshToken then
    match net with
    | .ok data =>
      let r := handleAuthResponse s now data
      (.ok r.1, r.2, [.refreshGrant])
    | .error e => (.error (parseRedditError e), s, [.refreshGrant])
  else
    (.error (AuthenticationError "No refresh token available"), s, [])

/-- `getAccessToken()`: return the cached token when it is truthy and
`now < tokenExpiry - 60000`; otherwise try the refresh grant first when a
refresh token is stored, swallowing its failure and falling back to the
password grant; with no refresh token, go straight to the password grant. -/
def getAccessToken (config : RedditConfig) (s : AuthState) (now : Int)
    (refreshNet passwordNet : Except CaughtError RedditAuthResponse) :
    Except RedditAPIError String × AuthState × List AuthCall :=
  if truthy s.accessToken ∧ now < s.tokenExpiry - 60000 then
    (.ok (s.accessToken.getD ""), s, [])
  else if truthy s.refreshToken then
    match authenticateWithRefreshToken s now refreshNet with
    | (.ok tok, s1, calls) => (.ok tok, s1, calls)
    | (.error _, s1, calls) =>
      let r := authenticateWithPassword config s1 now passwordNet
      (r.1, r.2.1, calls ++ r.2.2)
  else
    authenticateWithPassword config s now passwordNet

/-- `isAuthenticated()`: the access token is non-null (a strict `!== null`
check, not truthiness) and the current time is strictly before the raw
stored expiry.  Pure: it takes the state and returns only a boolean. -/
def isAuthenticated (s : AuthState) (now : Int) : Bool :=
  s.accessToken.isSome && decide (now < s.tokenExpiry)

/-- `revokeToken()`: no-op on a falsy cached token; otherwise issue the
revocation request and, only when it succeeds, clear the cached token and
expiry; a failure is normalized and rethrown with the state untouched. -/
def revokeToken (s : AuthState) (net : Except CaughtError Unit) :
    Except RedditAPIError Unit × AuthState × List AuthCall :=
  if truthy s.accessToken then
    match net with
    | .ok _ => (.ok (), { s with accessToken := none, tokenExpiry := 0 }, [.revoke])
    | .error e => (.error (parseRedditError e), s, [.revoke])
  else
    (.ok (), s, [])

/-! ## The token-bucket rate limiter (`RateLimiter`) -/

/-- Mutable fields of a `RateLimiter` instance; queued waiters are
represented by identifiers (assigned by the trace semantics below in
arrival order). -/
structure RateLimiterState where
  tokens : ℚ
  maxTokens : ℚ
  refillRate : ℚ
  lastRefill : ℚ
  queue : List Nat
deriving DecidableEq

/-- The `RateLimiter` constructor at time `now`: a full bucket of
`requestsPerMinute` tokens refilling at `requestsPerMinute / 60000` tokens
per millisecond, with an empty queue. -/
def RateLimiter.make (requestsPerMinute : ℚ) (now : ℚ) : RateLimiterState :=
  { tokens := requestsPerMinute, maxTokens := requestsPerMinute,
    refillRate := requestsPerMinute / 60000, lastRefill := now, queue := [] }

/-- `refillTokens()`: add `elapsed × refillRate` tokens (`elapsed` being
`now - lastRefill`), capped at `maxTokens`, and stamp the refill time. -/
def refillTokens (s : RateLimiterState) (now : ℚ) : RateLimiterState :=
  { s with tokens := min s.maxTokens (s.tokens + (now - s.lastRefill) * s.refillRate),
           lastRefill := now }

/-- Whether an `acquire()` call resolved immediately or was enqueued. -/
inductive AcquireOutcome where
  | granted
  | queued
deriving DecidableEq

/-- `acquire()` by waiter `w` at time `now`: refill, then either consume a
token and resolve immediately, or append the waiter to the queue. -/
def acquire (s : RateLimiterState) (now : ℚ) (w : Nat) :
    AcquireOutcome × RateLimiterState :=
  if 1 ≤ (refillTokens s now).tokens then
    (.granted, { refillTokens s now with tokens := (refillTokens s now).tokens - 1 })
  else
    (.queued, { refillTokens s now with queue := (refillTokens s now).queue ++ [w] })

/-- The `while` loop of `processQueue()`: shift waiters off the front and
consume one token each while at least one token remains.  Returns the final
token count, the remaining queue, and the waiters resolved in order. -/
def processQueueAux : ℚ → List Nat → ℚ × List Nat × List Nat
  | t, [] => (t, [], [])
  | t, w :: ws =>
    if 1 ≤ t then
      let r := processQueueAux (t - 1) ws
      (r.1, r.2.1, w :: r.2.2)
    else (t, w :: ws, [])

/-- `processQueue()`: resolve queued waiters in FIFO order while tokens
remain.  Returns the resolved waiters in resolution order. -/
def processQueue (s : RateLimiterState) : RateLimiterState × List Nat :=
  ({ s with tokens := (processQueueAux s.tokens s.queue).1,
            queue := (processQueueAux s.tokens s.queue).2.1 },
    (processQueueAux s.tokens s.queue).2.2)

/-- `getStatus()`: refill, then report the floored token count and the
capacity; consumes no token. -/
def getStatus (s : RateLimiterState) (now : ℚ) :
    (Int × ℚ) × RateLimiterState :=
  ((⌊(refillTokens s now).tokens⌋, (refillTokens s now).maxTokens),
    refillTokens s now)

/-- `reset()`: restore a full bucket, stamp the time, and reject every
queued waiter (shifted off in FIFO order).  Returns the rejected waiters in
rejection order. -/
def RateLimiter.reset (s : RateLimiterState) (now : ℚ) :
    RateLimiterState × List Nat :=
  ({ s with tokens := s.maxTokens, lastRefill := now, queue := [] }, s.queue)

/-- Events driving a rate-limiter instance: an `acquire()` call, the firing
of a scheduled refill timer (which refills and then drains the queue), a
`reset()` call, and a `getStatus()` call. -/
inductive RLEvent where
  | acquireEv (now : ℚ)
  | timerEv (now : ℚ)
  | resetEv (now : ℚ)
  | statusEv (now : ℚ)
deriving DecidableEq

/-- Observable outcomes logged while running a rate limiter: a call granted
synchronously, a call enqueued, a queued waiter resolved, and a queued
waiter rejected by `reset()`. -/
inductive RLOutcome where
  | granted (w : Nat)
  | enqueued (w : Nat)
  | resolved (w : Nat)
  | rejected (w : Nat)
deriving DecidableEq

/-- One event step.  `nextId` numbers `acquire()` calls in arrival order;
the step returns the new state, the next fresh identifier, and the outcomes
logged during the step, in the order they happen. -/
def rlStep (s : RateLimiterState) (nextId : Nat) (e : RLEvent) :
    RateLimiterState × Nat × List RLOutcome :=
  match e with
  | .acquireEv now =>
    ((acquire s now nextId).2, nextId + 1,
      if (acquire s now nextId).1 = .granted then [RLOutcome.granted nextId]
      else [RLOutcome.enqueued nextId])
  | .timerEv now =>
    ((processQueue (refillTokens s now)).1, nextId,
      (processQueue (refillTokens s now)).2.map .resolved)
  | .resetEv now =>
    ((RateLimiter.reset s now).1, nextId, (RateLimiter.reset s now).2.map .rejected)
  | .statusEv now => (refillTokens s now, nextId, [])

/-- Run a list of events, concatenating the logged outcomes. -/
def rlRun (s : RateLimiterState) (nextId : Nat) :
    List RLEvent → RateLimiterState × Nat × List RLOutcome
  | [] => (s, nextId, [])
  | e :: es =>
    ((rlRun (rlStep s nextId e).1 (rlStep s nextId e).2.1 es).1,
      (rlRun (rlStep s nextId e).1 (rlStep s nextId e).2.1 es).2.1,
      (rlStep s nextId e).2.2 ++
        (rlRun (rlStep s nextId e).1 (rlStep s nextId e).2.1 es).2.2)

/-- Identifiers of the waiters resolved from the queue, in log order. -/
def resolvedIds (log : List RLOutcome) : List Nat :=
  log.filterMap fun o =>
    match o with
    | .resolved w => some w
    | _ => none

/-- Identifiers of the waiters rejected by `reset()`, in log order. -/
def rejectedIds (log : List RLOutcome) : List Nat :=
  log.filterMap fun o =>
    match o with
    | .rejected w => some w
    | _ => none

/-- Iterate `acquire` `n` times at a fixed instant, the `k`-th call made by
waiter `k`. -/
def acquireN (s : RateLimiterState) (now : ℚ) : Nat → RateLimiterState
  | 0 => s
  | n + 1 => (acquire (acquireN s now n) now n).2

/-- Bucket-count invariant of the rate limiter. -/
def TokensInBounds (s : RateLimiterState) : Prop :=
  0 ≤ s.tokens ∧ s.tokens ≤ s.maxTokens

/-! ## The retry helper (`retryWithBackoff`) -/

/-- The `instanceof AuthenticationError / ForbiddenError / NotFoundError`
checks deciding that an error must not be retried. -/
def isTerminalError (e : RedditAPIError) : Bool :=
  e.name = "AuthenticationError" || e.name = "ForbiddenError" || e.name = "NotFoundError"

/-- The wait performed before the retry following `attempt`: the declared
`retryAfter × 1000` for a rate-limit error (`none` models a `NaN`
duration), and `baseDelay × 2 ^ attempt + jitter attempt` otherwise, where
`jitter` is the oracle for `Math.random() * 1000`. -/
def backoffSleep (e : RedditAPIError) (attempt : Nat) (baseDelay : ℚ)
    (jitter : Nat → ℚ) : Option ℚ :=
  if e.name = "RateLimitError" then e.retryAfter.map fun n => (n : ℚ) * 1000
  else some (baseDelay * 2 ^ attempt + jitter attempt)

/-- The `for` loop of `retryWithBackoff`, with `fn k` the outcome of the
`k`-th invocation of the wrapped function and `fuel = maxRetries + 1 -
attempt` making the loop structurally recursive.  Returns the result, the
number of invocations performed, and the sleeps taken, in order. -/
def retryGo (fn : Nat → Except RedditAPIError α) (maxRetries : Nat)
    (baseDelay : ℚ) (jitter : Nat → ℚ) :
    Nat → Nat → Except RedditAPIError α × Nat × List (Option ℚ)
  | _, 0 => (.error (mkRedditAPIError "Max retries exceeded" none none none), 0, [])
  | attempt, fuel + 1 =>
    match fn attempt with
    | .ok v => (.ok v, 1, [])
    | .error e =>
      if isTerminalError e then (.error e, 1, [])
      else if attempt = maxRetries then (.error e, 1, [])
      else
        let w := backoffSleep e attempt baseDelay jitter
        let r := retryGo fn maxRetries baseDelay jitter (attempt + 1) fuel
        (r.1, r.2.1 + 1, w :: r.2.2)

/-- `retryWithBackoff(fn, maxRetries, baseDelay)` with the jitter oracle
made explicit: run the loop from attempt 0. -/
def retryWithBackoff (fn : Nat → Except RedditAPIError α) (maxRetries : Nat)
    (baseDelay : ℚ) (jitter : Nat → ℚ) :
    Except RedditAPIError α × Nat × List (Option ℚ) :=
  retryGo fn maxRetries baseDelay jitter 0 (maxRetries + 1)

/-! ## Theorems -/

/-- C9: `isAuthenticated()` returns `true` iff an access token is cached
(non-null) and the current time is strictly before the stored raw expiry,
with no 60-second safety margin subtracted — in particular it still returns
`true` inside the final 60 seconds before expiry; being a pure function of
the state, it changes no state. -/
theorem isAuthenticated_raw_expiry (s : AuthState) (now : Int) :
    (isAuthenticated s now = true ↔ (∃ t, s.accessToken = some t) ∧ now < s.tokenExpiry)
    ∧ (∀ t, s.accessToken = some t → s.tokenExpiry - 60000 ≤ now → now < s.tokenExpiry →
        isAuthenticated s now = true) := by
  constructor
  · unfold isAuthenticated
    rw [Bool.and_eq_true, decide_eq_true_eq, Option.isSome_iff_exists]
  · intro t ht _ hlt
    unfold isAuthenticated
    rw [Bool.and_eq_true, decide_eq_true_eq, Option.isSome_iff_exists]
    exact ⟨⟨t, ht⟩, hlt⟩

/-- Witness for C9: with a token cached and expiry 100, time 70 is inside
the 60-second margin window yet `isAuthenticated` is still `true`. -/
theorem isAuthenticated_raw_expiry_witness :
    isAuthenticated { accessToken := some "tok", refreshToken := none, tokenExpiry := 100 }
      70 = true :=
  (isAuthenticated_raw_expiry
      { accessToken := some "tok", refreshToken := none, tokenExpiry := 100 } 70).2
    "tok" rfl (by decide) (by decide)

/-- C10: calling `authenticateWithPassword` with username or password
absent, or `authenticateWithRefreshToken` with no stored refresh token,
raises an `AuthenticationError` before issuing any network request and
leaves the cached token, expiry and refresh token exactly as they were. -/
theorem authenticate_missing_credentials_atomic :
    (∀ (config : RedditConfig) (s : AuthState) (now : Int)
        (net : Except CaughtError RedditAuthResponse),
      config.username = none ∨ config.password = none →
      authenticateWithPassword config s now net =
        (.error (AuthenticationError
            "Username and password are required for script authentication"), s, []))
    ∧ (∀ (s : AuthState) (now : Int) (net : Except CaughtError RedditAuthResponse),
      s.refreshToken = none →
      authenticateWithRefreshToken s now net =
        (.error (AuthenticationError "No refresh token available"), s, [])) := by
  constructor
  · intro config s now net h
    unfold authenticateWithPassword
    rcases h with h | h <;> rw [h] <;> simp [truthy]
  · intro s now net h
    unfold authenticateWithRefreshToken
    rw [h]
    simp [truthy]

/-- Witness for C10: with no password configured, the password grant fails
with an `AuthenticationError` without touching state or the network. -/
theorem authenticate_missing_credentials_atomic_witness :
    authenticateWithPassword
      { clientId := "id", clientSecret := "sec", userAgent := "ua",
        username := some "user", password := none, refreshToken := none }
      { accessToken := none, refreshToken := none, tokenExpiry := 0 } 5
      (.ok { access_token := "tok", expires_in := 3600, refresh_token := none }) =
    (.error (AuthenticationError
        "Username and password are required for script authentication"),
      { accessToken := none, refreshToken := none, tokenExpiry := 0 }, []) :=
  authenticate_missing_credentials_atomic.1
    { clientId := "id", clientSecret := "sec", userAgent := "ua",
      username := some "user", password := none, refreshToken := none }
    { accessToken := none, refreshToken := none, tokenExpiry := 0 } 5
    (.ok { access_token := "tok", expires_in := 3600, refresh_token := none })
    (Or.inr rfl)

/-- Counterexample to C8 as stated: with a cached access token and a
failing revocation call, the cached token is NOT cleared (it is still
`some "tok"` afterwards), so the claim that the token and expiry are
cleared regardless of the revocation call's outcome is false. -/
theorem revokeToken_failure_keeps_token :
    (revokeToken { accessToken := some "tok", refreshToken := none, tokenExpiry := 99999 }
        (.error (.plainError "network down"))).2.1.accessToken = some "tok"
    ∧ (revokeToken { accessToken := some "tok", refreshToken := none, tokenExpiry := 99999 }
        (.error (.plainError "network down"))).1 =
      .error (mkRedditAPIError "network down" none none none) :=
  ⟨rfl, rfl⟩

/-- C8 (amended): `revokeToken()` is a no-op when no access token is
cached; otherwise it calls the revocation endpoint and, when that call
succeeds, clears the cached token and expiry; a failing revocation call
propagates as a normalized error and leaves the cached token and expiry
unchanged. -/
theorem revokeToken_spec :
    (∀ (s : AuthState) (net : Except CaughtError Unit), s.accessToken = none →
      revokeToken s net = (.ok (), s, []))
    ∧ (∀ s : AuthState, truthy s.accessToken = true →
      revokeToken s (.ok ()) =
        (.ok (), { s with accessToken := none, tokenExpiry := 0 }, [.revoke]))
    ∧ (∀ (s : AuthState) (ce : CaughtError), truthy s.accessToken = true →
      revokeToken s (.error ce) = (.error (parseRedditError ce), s, [.revoke])) := by
  refine ⟨fun s net h => ?_, fun s h => ?_, fun s ce h => ?_⟩
  · unfold revokeToken
    rw [h]
    simp [truthy]
  · unfold revokeToken
    rw [h]
    simp
  · unfold revokeToken
    rw [h]
    simp

/-- Witness for C8 (amended): a successful revocation clears the cached
token and expiry. -/
theorem revokeToken_spec_witness :
    revokeToken { accessToken := some "tok", refreshToken := some "rt", tokenExpiry := 777 }
      (.ok ()) =
    (.ok (), { accessToken := none, refreshToken := some "rt", tokenExpiry := 0 },
      [.revoke]) :=
  revokeToken_spec.2.1
    { accessToken := some "tok", refreshToken := some "rt", tokenExpiry := 777 } rfl

/-- C1: `getAccessToken()` returns the cached token with no network call
when a token is cached and the current time is more than 60 seconds before
its stored expiry; otherwise, with a stored refresh token, the refresh
grant is attempted first — its success is returned directly, and its
failure is swallowed, the outcome of the password grant becoming the
outcome of the whole call; with no stored refresh token the password grant
is attempted directly. -/
theorem getAccessToken_spec (config : RedditConfig) (s : AuthState) (now : Int)
    (refreshNet passwordNet : Except CaughtError RedditAuthResponse) :
    (∀ tok, s.accessToken = some tok → tok ≠ "" → now < s.tokenExpiry - 60000 →
      getAccessToken config s now refreshNet passwordNet = (.ok tok, s, []))
    ∧ (¬ (truthy s.accessToken = true ∧ now < s.tokenExpiry - 60000) →
        truthy s.refreshToken = true →
        (∀ data, refreshNet = .ok data →
          getAccessToken config s now refreshNet passwordNet =
            (.ok (handleAuthResponse s now data).1, (handleAuthResponse s now data).2,
              [.refreshGrant]))
        ∧ (∀ ce, refreshNet = .error ce →
          getAccessToken config s now refreshNet passwordNet =
            ((authenticateWithPassword config s now passwordNet).1,
              (authenticateWithPassword config s now passwordNet).2.1,
              .refreshGrant :: (authenticateWithPassword config s now passwordNet).2.2)))
    ∧ (¬ (truthy s.accessToken = true ∧ now < s.tokenExpiry - 60000) →
        truthy s.refreshToken = false →
        getAccessToken config s now refreshNet passwordNet =
          authenticateWithPassword config s now passwordNet) := by
  refine ⟨fun tok htok hne hfresh => ?_, fun hstale hrt => ⟨fun data hnet => ?_, fun ce hnet => ?_⟩,
    fun hstale hrt => ?_⟩
  · have htr : truthy s.accessToken = true := by
      rw [htok]
      unfold truthy
      cases hie : tok.isEmpty
      · simp [truthy, hie]
      · exact absurd ((String.isEmpty_iff tok).mp hie) hne
    unfold getAccessToken
    rw [if_pos ⟨htr, hfresh⟩, htok]
    rfl
  · unfold getAccessToken
    rw [if_neg hstale, if_pos hrt]
    unfold authenticateWithRefreshToken
    rw [if_pos hrt, hnet]
  · unfold getAccessToken
    rw [if_neg hstale, if_pos hrt]
    unfold authenticateWithRefreshToken
    rw [if_pos hrt, hnet]
    rfl
  · unfold getAccessToken
    rw [if_neg hstale, if_neg (by rw [hrt]; exact Bool.false_ne_true)]

/-- Witness for C1: a failing refresh grant (401) is swallowed and the
password grant's token is returned, with the refresh request issued first. -/
theorem getAccessToken_spec_witness :
    getAccessToken
      { clientId := "id", clientSecret := "sec", userAgent := "ua",
        username := some "user", password := some "pw", refreshToken := some "rt" }
      { accessToken := none, refreshToken := some "rt", tokenExpiry := 0 } 1000
      (.error (.axiosErr (some 401) none none "unauthorized"))
      (.ok { access_token := "fresh", expires_in := 3600, refresh_token := none }) =
    (.ok "fresh",
      { accessToken := some "fresh", refreshToken := some "rt", tokenExpiry := 3601000 },
      [.refreshGrant, .passwordGrant]) := by
  have h := (getAccessToken_spec
    { clientId := "id", clientSecret := "sec", userAgent := "ua",
      username := some "user", password := some "pw", refreshToken := some "rt" }
    { accessToken := none, refreshToken := some "rt", tokenExpiry := 0 } 1000
    (.error (.axiosErr (some 401) none none "unauthorized"))
    (.ok { access_token := "fresh", expires_in := 3600, refresh_token := none })).2.1
    (by simp [truthy]) rfl
  rw [h.2 (.axiosErr (some 401) none none "unauthorized") rfl]
  rfl

/-- A decimal digit is not one of the whitespace characters `parseInt`
skips. -/
lemma jsWhitespace_of_isDigit (c : Char) (h : c.isDigit = true) :
    jsWhitespace c = false := by
  unfold jsWhitespace
  by_contra hb
  rw [Bool.not_eq_false, Bool.or_eq_true, Bool.or_eq_true, Bool.or_eq_true] at hb
  simp only [decide_eq_true_eq] at hb
  rcases hb with ((h1 | h1) | h1) | h1 <;> subst h1 <;> exact absurd h (by decide)

/-- A list starting with a decimal digit carries no sign. -/
lemma parseSign_digit (c : Char) (cs : List Char) (h : c.isDigit = true) :
    parseSign (c :: cs) = (false, c :: cs) := by
  have h1 : ¬ (c = '-') := fun hc => by subst hc; exact absurd h (by decide)
  have h2 : ¬ (c = '+') := fun hc => by subst hc; exact absurd h (by decide)
  simp [parseSign, h1, h2]

/-- `takeWhile` keeps a list all of whose elements satisfy the predicate. -/
lemma takeWhile_of_all (p : Char → Bool) :
    ∀ l : List Char, l.all p = true → l.takeWhile p = l
  | [], _ => rfl
  | c :: cs, h => by
    rw [List.all_cons, Bool.and_eq_true] at h
    rw [List.takeWhile_cons, if_pos h.1, takeWhile_of_all p cs h.2]

/-- `dropWhile` keeps a list whose head already fails the predicate. -/
lemma dropWhile_of_head_false (p : Char → Bool) (c : Char) (cs : List Char)
    (h : p c = false) : (c :: cs).dropWhile p = c :: cs := by
  rw [List.dropWhile_cons, h]
  simp

/-- The most-significant-first digit fold agrees with Mathlib's
little-endian `Nat.ofDigits` evaluation of the reversed digit list. -/
lemma foldl_digits_eq_ofDigits :
    ∀ (l : List Char) (a : Nat),
      l.foldl (fun n c => n * 10 + (c.toNat - '0'.toNat)) a =
        Nat.ofDigits 10 ((l.map fun c => c.toNat - '0'.toNat).reverse) +
          a * 10 ^ l.length
  | [], a => by simp [Nat.ofDigits]
  | c :: cs, a => by
    rw [List.foldl_cons, foldl_digits_eq_ofDigits cs, List.map_cons,
      List.reverse_cons, Nat.ofDigits_append]
    simp only [List.length_reverse, List.length_map, List.length_cons,
      Nat.ofDigits_singleton]
    ring

/-- On a non-empty all-digit string, the `parseInt` model returns exactly
the decimal value of the digit string, as given by `Nat.ofDigits`. -/
lemma jsParseInt_all_digits (h : String) (n : Nat)
    (hne : h.data ≠ []) (hall : h.data.all Char.isDigit = true)
    (hval : Nat.ofDigits 10 ((h.data.map fun c => c.toNat - '0'.toNat).reverse) = n) :
    jsParseInt h = some (n : Int) := by
  obtain ⟨c, cs, hcons⟩ := List.exists_cons_of_ne_nil hne
  have hdig : c.isDigit = true ∧ cs.all Char.isDigit = true := by
    rw [hcons, List.all_cons, Bool.and_eq_true] at hall
    exact hall
  have hrun : jsDigitRun h = c :: cs := by
    unfold jsDigitRun
    rw [hcons, dropWhile_of_head_false _ _ _ (jsWhitespace_of_isDigit c hdig.1),
      parseSign_digit c cs hdig.1]
    apply takeWhile_of_all
    rw [List.all_cons, Bool.and_eq_true]
    exact hdig
  have hneg : jsNegative h = false := by
    unfold jsNegative
    rw [hcons, dropWhile_of_head_false _ _ _ (jsWhitespace_of_isDigit c hdig.1),
      parseSign_digit c cs hdig.1]
  unfold jsParseInt
  rw [hrun, hneg, if_neg (by simp), if_neg (by simp)]
  unfold digitsToNat
  rw [show c :: cs = h.data from hcons.symm, foldl_digits_eq_ofDigits, hval]
  simp

/-- C6: `parseRedditError` classifies by HTTP status: 401 is
Authentication, 403 Forbidden, 404 NotFound; 429 is RateLimit with
`retryAfter` the integer value of the `retry-after` header (its decimal
digits evaluated by `Nat.ofDigits`), or 60 when the header is absent;
500/502/503/504 are ServiceUnavailable; any other status is Unknown. -/
theorem parseRedditError_classification :
    (∀ hdr dmsg msg, (parseRedditError (.axiosErr (some 401) hdr dmsg msg)).name =
      "AuthenticationError")
    ∧ (∀ hdr dmsg msg, (parseRedditError (.axiosErr (some 403) hdr dmsg msg)).name =
      "ForbiddenError")
    ∧ (∀ hdr dmsg msg, (parseRedditError (.axiosErr (some 404) hdr dmsg msg)).name =
      "NotFoundError")
    ∧ (∀ hdr dmsg msg, (parseRedditError (.axiosErr (some 429) hdr dmsg msg)).name =
      "RateLimitError")
    ∧ (∀ (h : String) (n : Nat) dmsg msg, h.data ≠ [] →
        h.data.all Char.isDigit = true →
        Nat.ofDigits 10 ((h.data.map fun c => c.toNat - '0'.toNat).reverse) = n →
        (parseRedditError (.axiosErr (some 429) (some h) dmsg msg)).retryAfter =
          some (n : Int))
    ∧ (∀ dmsg msg, (parseRedditError (.axiosErr (some 429) none dmsg msg)).retryAfter =
        some 60)
    ∧ (∀ (st : Nat) hdr dmsg msg, st = 500 ∨ st = 502 ∨ st = 503 ∨ st = 504 →
        (parseRedditError (.axiosErr (some st) hdr dmsg msg)).errorCode =
          some "SERVICE_UNAVAILABLE")
    ∧ (∀ (st : Nat) hdr dmsg msg,
        st ∉ ([401, 403, 404, 429, 500, 502, 503, 504] : List Nat) →
        (parseRedditError (.axiosErr (some st) hdr dmsg msg)).errorCode =
          some "UNKNOWN_ERROR") := by
  refine ⟨fun hdr dmsg msg => rfl, fun hdr dmsg msg => rfl, fun hdr dmsg msg => rfl,
    fun hdr dmsg msg => rfl, fun h n dmsg msg hne hall hval => ?_,
    fun dmsg msg => rfl, fun st hdr dmsg msg hst => ?_,
    fun st hdr dmsg msg hst => ?_⟩
  · have hie : h.isEmpty = false := by
      cases hie : h.isEmpty
      · rfl
      · exact absurd (by rw [(String.isEmpty_iff h).mp hie] at hne; exact hne rfl)
          (by simp)
    have hj : jsOr (some h) "60" = h := by simp [jsOr, hie]
    show (RateLimitError
      ("Rate limit exceeded. Retry after " ++
        retryAfterText (jsParseInt (jsOr (some h) "60")) ++ " seconds.")
      (jsParseInt (jsOr (some h) "60"))).retryAfter = some (n : Int)
    rw [hj, jsParseInt_all_digits h n hne hall hval]
    rfl
  · rcases hst with h | h | h | h <;> subst h <;> rfl
  · simp only [List.mem_cons, List.not_mem_nil, or_false, not_or] at hst
    obtain ⟨h1, h2, h3, h4, h5, h6, h7, h8⟩ := hst
    simp only [parseRedditError, Option.some.injEq]
    rw [if_neg h1, if_neg h2, if_neg h3, if_neg h4,
      if_neg (by rw [not_or, not_or, not_or]; exact ⟨h5, h6, h7, h8⟩)]
    rfl

/-- Witness for C6: header `retry-after: 120` yields `retryAfter = 120`,
and an unlisted status like 418 yields an Unknown-kind error. -/
theorem parseRedditError_classification_witness :
    (parseRedditError (.axiosErr (some 429) (some "120") none "boom")).retryAfter =
      some 120
    ∧ (parseRedditError (.axiosErr (some 418) none none "boom")).errorCode =
      some "UNKNOWN_ERROR" :=
  ⟨parseRedditError_classification.2.2.2.2.1 "120" 120 none "boom" (by decide)
      (by decide) (by decide),
    parseRedditError_classification.2.2.2.2.2.2.2 418 none none "boom" (by decide)⟩

/-- With no time elapsing, `k ≤ C` acquisitions on a fresh limiter of
capacity `C` leave `C - k` tokens and an empty queue. -/
lemma acquireN_make (C : ℕ) (t0 : ℚ) :
    ∀ k : ℕ, k ≤ C → acquireN (RateLimiter.make C t0) t0 k =
      { tokens := (C : ℚ) - (k : ℚ), maxTokens := (C : ℚ),
        refillRate := (C : ℚ) / 60000, lastRefill := t0, queue := [] }
  | 0, _ => by
    simp [acquireN, RateLimiter.make]
  | k + 1, hk => by
    have hk' : k ≤ C := Nat.le_of_succ_le hk
    have hkC : (k : ℚ) + 1 ≤ (C : ℚ) := by exact_mod_cast hk
    unfold acquireN
    rw [acquireN_make C t0 k hk']
    unfold acquire refillTokens
    have hmin : min (C : ℚ) ((C : ℚ) - (k : ℚ) + (t0 - t0) * ((C : ℚ) / 60000)) =
        (C : ℚ) - (k : ℚ) := by
      rw [sub_self, zero_mul, add_zero]
      exact min_eq_right (by linarith)
    simp only [hmin]
    rw [if_pos (by linarith)]
    simp only [RateLimiterState.mk.injEq, and_true, true_and]
    push_cast
    ring

/-- C2: on a fresh limiter of positive capacity `C` with no time elapsing,
each of the first `N ≤ C` `acquire()` calls completes immediately without
queuing, and the call right after the `C`-th acquisition does not complete
but is appended to the (previously empty) waiter queue. -/
theorem rateLimiter_burst_capacity (C N : ℕ) (t0 : ℚ) (hC : 0 < C) (hN : N ≤ C) :
    (∀ k : ℕ, k < N →
      (acquire (acquireN (RateLimiter.make C t0) t0 k) t0 k).1 = .granted)
    ∧ (acquire (acquireN (RateLimiter.make C t0) t0 C) t0 C).1 = .queued
    ∧ (acquire (acquireN (RateLimiter.make C t0) t0 C) t0 C).2.queue = [C] := by
  have hstep : ∀ k : ℕ, k ≤ C →
      acquire (acquireN (RateLimiter.make C t0) t0 k) t0 k =
        (if 1 ≤ (C : ℚ) - (k : ℚ) then
          (.granted,
            { tokens := (C : ℚ) - (k : ℚ) - 1, maxTokens := (C : ℚ),
              refillRate := (C : ℚ) / 60000, lastRefill := t0, queue := [] })
        else
          (.queued,
            { tokens := (C : ℚ) - (k : ℚ), maxTokens := (C : ℚ),
              refillRate := (C : ℚ) / 60000, lastRefill := t0, queue := [k] })) := by
    intro k hk
    rw [acquireN_make C t0 k hk]
    unfold acquire refillTokens
    have hkC : (k : ℚ) ≤ (C : ℚ) := by exact_mod_cast hk
    have hmin : min (C : ℚ) ((C : ℚ) - (k : ℚ) + (t0 - t0) * ((C : ℚ) / 60000)) =
        (C : ℚ) - (k : ℚ) := by
      rw [sub_self, zero_mul, add_zero]
      exact min_eq_right (by linarith)
    simp only [hmin]
    split
    · rfl
    · rfl
  refine ⟨fun k hkN => ?_, ?_, ?_⟩
  · have hk : k ≤ C := le_of_lt (lt_of_lt_of_le hkN hN)
    rw [hstep k hk, if_pos ?_]
    have : (k : ℚ) + 1 ≤ (C : ℚ) := by exact_mod_cast lt_of_lt_of_le hkN hN
    linarith
  · rw [hstep C le_rfl, if_neg ?_]
    rw [sub_self]
    norm_num
  · rw [hstep C le_rfl, if_neg ?_]
    rw [sub_self]
    norm_num

/-- Witness for C2: capacity 2 grants the first two calls and queues the
third. -/
theorem rateLimiter_burst_capacity_witness :
    (acquire (acquireN (RateLimiter.make 2 0) 0 0) 0 0).1 = .granted
    ∧ (acquire (acquireN (RateLimiter.make 2 0) 0 1) 0 1).1 = .granted
    ∧ (acquire (acquireN (RateLimiter.make 2 0) 0 2) 0 2).1 = .queued := by
  obtain ⟨h1, h2, h3⟩ := rateLimiter_burst_capacity 2 2 0 (by decide) (by decide)
  exact ⟨h1 0 (by decide), h1 1 (by decide), h2⟩

/-- Draining the queue never pushes the token count below 0 and never
raises it. -/
lemma processQueueAux_tokens_bounds :
    ∀ (q : List Nat) (t : ℚ), 0 ≤ t →
      0 ≤ (processQueueAux t q).1 ∧ (processQueueAux t q).1 ≤ t
  | [], t, ht => ⟨ht, le_refl t⟩
  | w :: ws, t, ht => by
    unfold processQueueAux
    split
    · rename_i h1
      have := processQueueAux_tokens_bounds ws (t - 1) (by linarith)
      exact ⟨this.1, by linarith [this.2]⟩
    · exact ⟨ht, le_refl t⟩

/-- C3: the token count stays within `[0, maxTokens]` across construction,
refill, `acquire()`, `getStatus()`, `reset()` and queue draining — with a
refill over a long enough idle period capping the count at exactly the
capacity — and a token is only ever consumed when the count is at least 1,
so the count never becomes negative. -/
theorem rateLimiter_tokens_in_bounds (s : RateLimiterState) (now : ℚ) (w : Nat)
    (rpm t0 : ℚ) (hrpm : 0 ≤ rpm) (hrate : 0 ≤ s.refillRate)
    (hmax : 0 ≤ s.maxTokens) (htime : s.lastRefill ≤ now)
    (hs : TokensInBounds s) :
    TokensInBounds (RateLimiter.make rpm t0)
    ∧ TokensInBounds (refillTokens s now)
    ∧ (s.maxTokens ≤ s.tokens + (now - s.lastRefill) * s.refillRate →
        (refillTokens s now).tokens = s.maxTokens)
    ∧ TokensInBounds (acquire s now w).2
    ∧ TokensInBounds (getStatus s now).2
    ∧ TokensInBounds (RateLimiter.reset s now).1
    ∧ TokensInBounds (processQueue s).1 := by
  obtain ⟨hs0, hs1⟩ := hs
  have hadd : 0 ≤ (now - s.lastRefill) * s.refillRate :=
    mul_nonneg (by linarith) hrate
  have hminnn : 0 ≤ min s.maxTokens (s.tokens + (now - s.lastRefill) * s.refillRate) :=
    le_min hmax (by linarith)
  have hminle : min s.maxTokens (s.tokens + (now - s.lastRefill) * s.refillRate) ≤
      s.maxTokens := min_le_left _ _
  have hrefill : TokensInBounds (refillTokens s now) := by
    unfold TokensInBounds refillTokens
    exact ⟨hminnn, hminle⟩
  refine ⟨⟨hrpm, le_refl rpm⟩, hrefill, fun hcap => ?_, ?_, hrefill, ⟨hmax, le_refl _⟩, ?_⟩
  · unfold refillTokens
    exact min_eq_left hcap
  · unfold acquire
    split
    · rename_i h1
      unfold TokensInBounds
      unfold refillTokens at h1 ⊢
      simp only at h1 ⊢
      exact ⟨by linarith, by linarith⟩
    · exact hrefill
  · unfold TokensInBounds processQueue
    have := processQueueAux_tokens_bounds s.queue s.tokens hs0
    exact ⟨this.1, le_trans this.2 hs1⟩

/-- Witness for C3: a limiter of capacity 2 with 1 token left, refilled
after a very long idle time, caps at exactly its capacity, and all listed
operations keep the count within bounds. -/
theorem rateLimiter_tokens_in_bounds_witness :
    (refillTokens
      { tokens := 1, maxTokens := 2, refillRate := 2 / 60000, lastRefill := 0,
        queue := [] } 1000000000).tokens = 2
    ∧ TokensInBounds (acquire
      { tokens := 1, maxTokens := 2, refillRate := 2 / 60000, lastRefill := 0,
        queue := [] } 1000000000 0).2 := by
  have h := rateLimiter_tokens_in_bounds
    { tokens := 1, maxTokens := 2, refillRate := 2 / 60000, lastRefill := 0,
      queue := [] } 1000000000 0 2 0 (by norm_num) (by norm_num) (by norm_num)
    (by norm_num) ⟨by norm_num, by norm_num⟩
  exact ⟨h.2.2.1 (by norm_num), h.2.2.2.1⟩

/-- Resolved then remaining waiters together are exactly the original
queue, in order: the drain loop serves a prefix of the FIFO queue. -/
lemma processQueueAux_split :
    ∀ (q : List Nat) (t : ℚ),
      (processQueueAux t q).2.2 ++ (processQueueAux t q).2.1 = q
  | [], t => rfl
  | w :: ws, t => by
    unfold processQueueAux
    split
    · rw [List.cons_append, processQueueAux_split ws (t - 1)]
    · rfl

/-- C5: `reset()` restores the token count to full capacity and rejects
exactly the waiters queued at that moment, in order, leaving the queue
empty; rejection happens only on a reset event, and a step never drops a
queued waiter silently — after any event, each previously queued waiter is
still queued, or was resolved, or was rejected. -/
theorem rateLimiter_reset_rejects_all (s : RateLimiterState) (now : ℚ)
    (nextId : Nat) :
    (RateLimiter.reset s now).1.tokens = s.maxTokens
    ∧ (RateLimiter.reset s now).1.queue = []
    ∧ (RateLimiter.reset s now).2 = s.queue
    ∧ rejectedIds (rlStep s nextId (.resetEv now)).2.2 = s.queue
    ∧ (∀ e : RLEvent, rejectedIds (rlStep s nextId e).2.2 = [] ∨ ∃ t, e = .resetEv t)
    ∧ (∀ (e : RLEvent) (w : Nat), w ∈ s.queue →
        w ∈ (rlStep s nextId e).1.queue
        ∨ w ∈ resolvedIds (rlStep s nextId e).2.2
        ∨ w ∈ rejectedIds (rlStep s nextId e).2.2) := by
  have hrej : ∀ l : List Nat, rejectedIds (l.map RLOutcome.rejected) = l := by
    intro l
    unfold rejectedIds
    rw [List.filterMap_map]
    exact List.filterMap_some l
  have hres : ∀ l : List Nat, resolvedIds (l.map RLOutcome.resolved) = l := by
    intro l
    unfold resolvedIds
    rw [List.filterMap_map]
    exact List.filterMap_some l
  refine ⟨rfl, rfl, ?_, ?_, ?_, ?_⟩
  · rfl
  · simp only [rlStep]
    rw [hrej]
    rfl
  · intro e
    cases e with
    | acquireEv t =>
      left
      simp only [rlStep]
      split <;> rfl
    | timerEv t =>
      left
      simp only [rlStep]
      unfold rejectedIds
      rw [List.filterMap_map, List.filterMap_eq_nil_iff]
      intro a _
      rfl
    | resetEv t => exact Or.inr ⟨t, rfl⟩
    | statusEv t => exact Or.inl rfl
  · intro e w hw
    cases e with
    | acquireEv t =>
      left
      simp only [rlStep]
      unfold acquire
      split
      · show w ∈ (refillTokens s t).queue
        exact hw
      · show w ∈ (refillTokens s t).queue ++ [nextId]
        exact List.mem_append_left _ hw
    | timerEv t =>
      simp only [rlStep]
      rw [hres]
      have hsplit := processQueueAux_split (refillTokens s t).queue
        (refillTokens s t).tokens
      have hq : (refillTokens s t).queue = s.queue := rfl
      rw [hq] at hsplit
      rcases (List.mem_append.mp (hsplit ▸ hw) : _) with h | h
      · exact Or.inr (Or.inl h)
      · exact Or.inl h
    | resetEv t =>
      right; right
      simp only [rlStep]
      rw [hrej]
      exact hw
    | statusEv t => exact Or.inl hw

/-- Witness for C5: a reset with two queued waiters rejects both, in
order, and refills the bucket. -/
theorem rateLimiter_reset_rejects_all_witness :
    (RateLimiter.reset
      { tokens := 0, maxTokens := 2, refillRate := 2 / 60000, lastRefill := 0,
        queue := [4, 7] } 50).1.tokens = 2
    ∧ (RateLimiter.reset
      { tokens := 0, maxTokens := 2, refillRate := 2 / 60000, lastRefill := 0,
        queue := [4, 7] } 50).2 = [4, 7]
    ∧ (4 ∈ rejectedIds (rlStep
        { tokens := 0, maxTokens := 2, refillRate := 2 / 60000, lastRefill := 0,
          queue := [4, 7] } 9 (.resetEv 50)).2.2) := by
  have h := rateLimiter_reset_rejects_all
    { tokens := 0, maxTokens := 2, refillRate := 2 / 60000, lastRefill := 0,
      queue := [4, 7] } 50 9
  refine ⟨h.1, h.2.2.1, ?_⟩
  rcases h.2.2.2.2.2 (.resetEv 50) 4 (by decide) with hq | hq | hq
  · exact absurd hq (by decide)
  · exact absurd hq (by decide)
  · exact hq

/-- One retry-loop step on a successful invocation. -/
lemma retryGo_step_ok {α : Type} (fn : Nat → Except RedditAPIError α)
    (maxRetries : Nat) (baseDelay : ℚ) (jitter : Nat → ℚ)
    (attempt fuelS fuel : Nat) (v : α) (hfuel : fuelS = fuel + 1)
    (hfn : fn attempt = .ok v) :
    retryGo fn maxRetries baseDelay jitter attempt fuelS = (.ok v, 1, []) := by
  subst hfuel
  simp only [retryGo]
  rw [hfn]

/-- One retry-loop step on a non-retryable error: rethrown at once. -/
lemma retryGo_step_terminal {α : Type} (fn : Nat → Except RedditAPIError α)
    (maxRetries : Nat) (baseDelay : ℚ) (jitter : Nat → ℚ)
    (attempt fuelS fuel : Nat) (e : RedditAPIError) (hfuel : fuelS = fuel + 1)
    (hfn : fn attempt = .error e) (hterm : isTerminalError e = true) :
    retryGo fn maxRetries baseDelay jitter attempt fuelS = (.error e, 1, []) := by
  subst hfuel
  simp only [retryGo]
  rw [hfn]
  simp [hterm]

/-- One retry-loop step on the final attempt: the last error surfaces. -/
lemma retryGo_step_break {α : Type} (fn : Nat → Except RedditAPIError α)
    (maxRetries : Nat) (baseDelay : ℚ) (jitter : Nat → ℚ)
    (attempt fuelS fuel : Nat) (e : RedditAPIError) (hfuel : fuelS = fuel + 1)
    (hfn : fn attempt = .error e) (hterm : isTerminalError e = false)
    (heq : attempt = maxRetries) :
    retryGo fn maxRetries baseDelay jitter attempt fuelS = (.error e, 1, []) := by
  subst hfuel
  simp only [retryGo]
  rw [hfn]
  simp [hterm, heq]

/-- One retry-loop step on a retryable error before the final attempt:
sleep, then continue with the next attempt. -/
lemma retryGo_step_error {α : Type} (fn : Nat → Except RedditAPIError α)
    (maxRetries : Nat) (baseDelay : ℚ) (jitter : Nat → ℚ)
    (attempt fuelS fuel : Nat) (e : RedditAPIError) (hfuel : fuelS = fuel + 1)
    (hfn : fn attempt = .error e) (hterm : isTerminalError e = false)
    (hne : attempt ≠ maxRetries) :
    retryGo fn maxRetries baseDelay jitter attempt fuelS =
      ((retryGo fn maxRetries baseDelay jitter (attempt + 1) fuel).1,
        (retryGo fn maxRetries baseDelay jitter (attempt + 1) fuel).2.1 + 1,
        backoffSleep e attempt baseDelay jitter ::
          (retryGo fn maxRetries baseDelay jitter (attempt + 1) fuel).2.2) := by
  subst hfuel
  simp only [retryGo]
  rw [hfn]
  simp [hterm, hne]

/-- A function failing on every attempt with retryable errors drives the
retry loop through all its attempts and surfaces the last error. -/
lemma retryGo_all_fail {α : Type} (fn : Nat → Except RedditAPIError α)
    (fnErr : Nat → RedditAPIError) (baseDelay : ℚ) (jitter : Nat → ℚ)
    (hfn : ∀ k, fn k = .error (fnErr k))
    (hterm : ∀ k, isTerminalError (fnErr k) = false) :
    ∀ (m attempt : Nat),
      (retryGo fn (attempt + m) baseDelay jitter attempt (m + 1)).1 =
        .error (fnErr (attempt + m))
      ∧ (retryGo fn (attempt + m) baseDelay jitter attempt (m + 1)).2.1 = m + 1
  | 0, attempt => by
    rw [retryGo_step_break fn (attempt + 0) baseDelay jitter attempt (0 + 1) 0
      (fnErr attempt) rfl (hfn attempt) (hterm attempt) (by omega)]
    refine ⟨?_, rfl⟩
    rw [Nat.add_zero]
  | m + 1, attempt => by
    have ih := retryGo_all_fail fn fnErr baseDelay jitter hfn hterm m (attempt + 1)
    rw [show attempt + 1 + m = attempt + (m + 1) from by omega] at ih
    rw [retryGo_step_error fn (attempt + (m + 1)) baseDelay jitter attempt
      (m + 1 + 1) (m + 1) (fnErr attempt) rfl (hfn attempt) (hterm attempt)
      (by omega)]
    exact ⟨ih.1, by rw [show ((retryGo fn (attempt + (m + 1)) baseDelay jitter
      (attempt + 1) (m + 1)).1, (retryGo fn (attempt + (m + 1)) baseDelay jitter
      (attempt + 1) (m + 1)).2.1 + 1, backoffSleep (fnErr attempt) attempt
      baseDelay jitter :: (retryGo fn (attempt + (m + 1)) baseDelay jitter
      (attempt + 1) (m + 1)).2.2).2.1 = (retryGo fn (attempt + (m + 1))
      baseDelay jitter (attempt + 1) (m + 1)).2.1 + 1 from rfl, ih.2]⟩

/-- C7: the retry helper does not retry Authentication-, Forbidden- or
NotFound-kind errors (one invocation, error rethrown unmodified); with
`maxRetries = 3` and two ServiceUnavailable failures before a success it
returns the success after exactly 3 invocations with strictly increasing
backoff waits; before retrying a RateLimit-kind error it waits exactly
`retryAfter` seconds (× 1000 ms); other retryable errors wait
`baseDelay × 2 ^ attempt + jitter attempt` with the jitter below 1000 ms;
and when every attempt fails the last error is thrown after
`maxRetries + 1` invocations. -/
theorem retryWithBackoff_spec {α : Type} :
    (∀ (fn : Nat → Except RedditAPIError α) (e : RedditAPIError)
        (maxRetries : Nat) (baseDelay : ℚ) (jitter : Nat → ℚ),
      fn 0 = .error e → isTerminalError e = true →
      retryWithBackoff fn maxRetries baseDelay jitter = (.error e, 1, []))
    ∧ (∀ (fn : Nat → Except RedditAPIError α) (v : α) (e0 e1 : RedditAPIError)
        (jitter : Nat → ℚ),
      fn 0 = .error e0 → fn 1 = .error e1 → fn 2 = .ok v →
      e0.name = "RedditAPIError" → e0.errorCode = some "SERVICE_UNAVAILABLE" →
      e1.name = "RedditAPIError" → e1.errorCode = some "SERVICE_UNAVAILABLE" →
      0 ≤ jitter 0 → jitter 0 < 1000 → 0 ≤ jitter 1 → jitter 1 < 1000 →
      retryWithBackoff fn 3 1000 jitter =
        (.ok v, 3, [some (1000 + jitter 0), some (2000 + jitter 1)])
      ∧ 1000 + jitter 0 < 2000 + jitter 1)
    ∧ (∀ (fn : Nat → Except RedditAPIError α) (e : RedditAPIError) (ra : Int)
        (maxRetries : Nat) (baseDelay : ℚ) (jitter : Nat → ℚ),
      fn 0 = .error e → e.name = "RateLimitError" → e.retryAfter = some ra →
      1 ≤ maxRetries →
      (retryWithBackoff fn maxRetries baseDelay jitter).2.2.head? =
        some (some ((ra : ℚ) * 1000)))
    ∧ (∀ (fn : Nat → Except RedditAPIError α) (e : RedditAPIError)
        (maxRetries : Nat) (baseDelay : ℚ) (jitter : Nat → ℚ)
        (attempt fuel : Nat),
      fn attempt = .error e → isTerminalError e = false →
      e.name ≠ "RateLimitError" → attempt ≠ maxRetries →
      (retryGo fn maxRetries baseDelay jitter attempt (fuel + 1)).2.2.head? =
        some (some (baseDelay * 2 ^ attempt + jitter attempt)))
    ∧ (∀ (fn : Nat → Except RedditAPIError α) (fnErr : Nat → RedditAPIError)
        (maxRetries : Nat) (baseDelay : ℚ) (jitter : Nat → ℚ),
      (∀ k, fn k = .error (fnErr k)) →
      (∀ k, isTerminalError (fnErr k) = false) →
      (retryWithBackoff fn maxRetries baseDelay jitter).1 =
        .error (fnErr maxRetries)
      ∧ (retryWithBackoff fn maxRetries baseDelay jitter).2.1 =
        maxRetries + 1) := by
  refine ⟨fun fn e maxRetries baseDelay jitter hfn hterm => ?_,
    fun fn v e0 e1 jitter hfn0 hfn1 hfn2 hn0 hc0 hn1 hc1 hj0 hj0' hj1 hj1' => ?_,
    fun fn e ra maxRetries baseDelay jitter hfn hname hra hmr => ?_,
    fun fn e maxRetries baseDelay jitter attempt fuel hfn hterm hname hne => ?_,
    fun fn fnErr maxRetries baseDelay jitter hfn hterm => ?_⟩
  · unfold retryWithBackoff
    rw [retryGo_step_terminal fn maxRetries baseDelay jitter 0 (maxRetries + 1)
      maxRetries e rfl hfn hterm]
  · have hterm0 : isTerminalError e0 = false := by
      unfold isTerminalError
      rw [hn0]
      rfl
    have hterm1 : isTerminalError e1 = false := by
      unfold isTerminalError
      rw [hn1]
      rfl
    have hrl0 : ¬ (e0.name = "RateLimitError") := by
      rw [hn0]
      decide
    have hrl1 : ¬ (e1.name = "RateLimitError") := by
      rw [hn1]
      decide
    constructor
    · unfold retryWithBackoff
      rw [retryGo_step_error fn 3 1000 jitter 0 (3 + 1) 3 e0 rfl hfn0 hterm0
        (by omega)]
      rw [retryGo_step_error fn 3 1000 jitter (0 + 1) 3 2 e1 rfl
        (by rw [show (0 : Nat) + 1 = 1 from rfl]; exact hfn1) hterm1 (by omega)]
      rw [retryGo_step_ok fn 3 1000 jitter (0 + 1 + 1) 2 1 v rfl
        (by rw [show (0 : Nat) + 1 + 1 = 2 from rfl]; exact hfn2)]
      unfold backoffSleep
      rw [if_neg hrl0, if_neg hrl1]
      norm_num
    · linarith
  · obtain ⟨m, hm⟩ : ∃ m, maxRetries = m + 1 := ⟨maxRetries - 1, by omega⟩
    subst hm
    have hterm0 : isTerminalError e = false := by
      unfold isTerminalError
      rw [hname]
      rfl
    unfold retryWithBackoff
    rw [retryGo_step_error fn (m + 1) baseDelay jitter 0 (m + 1 + 1) (m + 1) e
      rfl hfn hterm0 (by omega)]
    unfold backoffSleep
    rw [if_pos hname, hra]
    rfl
  · rw [retryGo_step_error fn maxRetries baseDelay jitter attempt (fuel + 1)
      fuel e rfl hfn hterm hne]
    unfold backoffSleep
    rw [if_neg hname]
    rfl
  · have h := retryGo_all_fail fn fnErr baseDelay jitter hfn hterm maxRetries 0
    rw [Nat.zero_add] at h
    exact ⟨h.1, h.2⟩

/-- Witness for C7: a function that always raises an Authentication-kind
error is invoked exactly once and the error surfaces unmodified. -/
theorem retryWithBackoff_spec_witness :
    retryWithBackoff (fun _ => .error (AuthenticationError "nope") :
        Nat → Except RedditAPIError Nat) 3 1000 (fun _ => 0) =
      (.error (AuthenticationError "nope"), 1, []) :=
  retryWithBackoff_spec.1 (fun _ => .error (AuthenticationError "nope"))
    (AuthenticationError "nope") 3 1000 (fun _ => 0) rfl rfl

/-- `resolvedIds` distributes over log concatenation. -/
lemma resolvedIds_append (a b : List RLOutcome) :
    resolvedIds (a ++ b) = resolvedIds a ++ resolvedIds b := by
  unfold resolvedIds
  rw [List.filterMap_append]

/-- The step relation preserves the queue discipline: the queue stays
strictly sorted by arrival number with all entries below the id counter,
the counter never decreases, and the waiters resolved in a step are
earlier-queued than everything still queued. -/
lemma rlStep_facts (s : RateLimiterState) (n : Nat) (e : RLEvent)
    (hsort : s.queue.Pairwise (· < ·)) (hb : ∀ w ∈ s.queue, w < n) :
    (rlStep s n e).1.queue.Pairwise (· < ·)
    ∧ (∀ w ∈ (rlStep s n e).1.queue, w < (rlStep s n e).2.1)
    ∧ n ≤ (rlStep s n e).2.1
    ∧ (∀ x ∈ resolvedIds (rlStep s n e).2.2, x ∈ s.queue)
    ∧ (∀ x ∈ resolvedIds (rlStep s n e).2.2, ∀ y ∈ (rlStep s n e).1.queue, x < y)
    ∧ (resolvedIds (rlStep s n e).2.2).Pairwise (· < ·)
    ∧ (∀ w ∈ (rlStep s n e).1.queue, w ∈ s.queue ∨ w = n) := by
  cases e with
  | acquireEv t =>
    have hres : resolvedIds (rlStep s n (.acquireEv t)).2.2 = [] := by
      simp only [rlStep]
      split <;> rfl
    have hqueue : (rlStep s n (.acquireEv t)).1.queue = s.queue
        ∨ (rlStep s n (.acquireEv t)).1.queue = s.queue ++ [n] := by
      show (acquire s t n).2.queue = s.queue ∨ (acquire s t n).2.queue = s.queue ++ [n]
      unfold acquire
      split
      · exact Or.inl rfl
      · exact Or.inr rfl
    have hnext : (rlStep s n (.acquireEv t)).2.1 = n + 1 := rfl
    rw [hres, hnext]
    rcases hqueue with hq | hq <;> rw [hq]
    · exact ⟨hsort, fun w hw => Nat.lt_succ_of_lt (hb w hw), Nat.le_succ n,
        fun x hx => absurd hx (List.not_mem_nil x),
        fun x hx => absurd hx (List.not_mem_nil x), List.Pairwise.nil,
        fun w hw => Or.inl hw⟩
    · refine ⟨?_, ?_, Nat.le_succ n,
        fun x hx => absurd hx (List.not_mem_nil x),
        fun x hx => absurd hx (List.not_mem_nil x), List.Pairwise.nil, ?_⟩
      · rw [List.pairwise_append]
        exact ⟨hsort, List.pairwise_singleton _ _,
          fun a ha b hbm => by rw [List.mem_singleton.mp hbm]; exact hb a ha⟩
      · intro w hw
        rcases List.mem_append.mp hw with h | h
        · exact Nat.lt_succ_of_lt (hb w h)
        · rw [List.mem_singleton.mp h]
          exact Nat.lt_succ_self n
      · intro w hw
        rcases List.mem_append.mp hw with h | h
        · exact Or.inl h
        · exact Or.inr (List.mem_singleton.mp h)
  | timerEv t =>
    have hres : resolvedIds (rlStep s n (.timerEv t)).2.2 =
        (processQueue (refillTokens s t)).2 := by
      show resolvedIds (((processQueue (refillTokens s t)).2).map RLOutcome.resolved) = _
      unfold resolvedIds
      rw [List.filterMap_map]
      exact List.filterMap_some _
    have hqueue : (rlStep s n (.timerEv t)).1.queue =
        (processQueue (refillTokens s t)).1.queue := rfl
    have hnext : (rlStep s n (.timerEv t)).2.1 = n := rfl
    have hsplit : (processQueue (refillTokens s t)).2 ++
        (processQueue (refillTokens s t)).1.queue = s.queue :=
      processQueueAux_split s.queue (refillTokens s t).tokens
    have hpw : ((processQueue (refillTokens s t)).2 ++
        (processQueue (refillTokens s t)).1.queue).Pairwise (· < ·) := by
      rw [hsplit]
      exact hsort
    rw [List.pairwise_append] at hpw
    obtain ⟨hpw1, hpw2, hpw3⟩ := hpw
    rw [hres, hqueue, hnext]
    refine ⟨hpw2, ?_, le_refl n, ?_, hpw3, hpw1, ?_⟩
    · intro w hw
      exact hb w (by rw [← hsplit]; exact List.mem_append_right _ hw)
    · intro x hx
      rw [← hsplit]
      exact List.mem_append_left _ hx
    · intro w hw
      exact Or.inl (by rw [← hsplit]; exact List.mem_append_right _ hw)
  | resetEv t =>
    have hres : resolvedIds (rlStep s n (.resetEv t)).2.2 = [] := by
      show resolvedIds (((RateLimiter.reset s t).2).map RLOutcome.rejected) = []
      unfold resolvedIds
      rw [List.filterMap_map, List.filterMap_eq_nil_iff]
      intro a _
      rfl
    have hqueue : (rlStep s n (.resetEv t)).1.queue = [] := rfl
    have hnext : (rlStep s n (.resetEv t)).2.1 = n := rfl
    rw [hres, hqueue, hnext]
    exact ⟨List.Pairwise.nil, fun w hw => absurd hw (List.not_mem_nil w), le_refl n,
      fun x hx => absurd hx (List.not_mem_nil x),
      fun x hx => absurd hx (List.not_mem_nil x), List.Pairwise.nil,
      fun w hw => absurd hw (List.not_mem_nil w)⟩
  | statusEv t =>
    exact ⟨hsort, hb, le_refl n, fun x hx => absurd hx (List.not_mem_nil x),
      fun x hx => absurd hx (List.not_mem_nil x), List.Pairwise.nil,
      fun w hw => Or.inl hw⟩

/-- Along any run, the waiters resolved from the queue come out in strictly
increasing arrival order, and each of them was queued at the start or
arrived during the run. -/
lemma rlRun_resolved_sorted :
    ∀ (events : List RLEvent) (s : RateLimiterState) (n : Nat),
      s.queue.Pairwise (· < ·) → (∀ w ∈ s.queue, w < n) →
      (resolvedIds (rlRun s n events).2.2).Pairwise (· < ·)
      ∧ (∀ x ∈ resolvedIds (rlRun s n events).2.2, x ∈ s.queue ∨ n ≤ x)
  | [], s, n, _, _ => by
    exact ⟨List.Pairwise.nil, fun x hx => absurd hx (List.not_mem_nil x)⟩
  | e :: es, s, n, hsort, hb => by
    obtain ⟨f1, f2, f3, f4, f5, f6, f7⟩ := rlStep_facts s n e hsort hb
    obtain ⟨ih1, ih2⟩ := rlRun_resolved_sorted es (rlStep s n e).1
      (rlStep s n e).2.1 f1 f2
    have hout : (rlRun s n (e :: es)).2.2 =
        (rlStep s n e).2.2 ++ (rlRun (rlStep s n e).1 (rlStep s n e).2.1 es).2.2 :=
      rfl
    rw [hout, resolvedIds_append]
    constructor
    · rw [List.pairwise_append]
      refine ⟨f6, ih1, ?_⟩
      intro a ha b hbm
      rcases ih2 b hbm with hbq | hbn
      · exact f5 a ha b hbq
      · exact lt_of_lt_of_le (hb a (f4 a ha)) (le_trans f3 hbn)
    · intro x hx
      rcases List.mem_append.mp hx with hx | hx
      · exact Or.inl (f4 x hx)
      · rcases ih2 x hx with hxq | hxn
        · rcases f7 x hxq with h | h
          · exact Or.inl h
          · exact Or.inr (le_of_eq h.symm)
        · exact Or.inr (le_trans f3 hxn)

/-- C4: queued waiters are served strictly in arrival order.  The drain
loop resolves a prefix of the FIFO queue (resolved followed by remaining is
the original queue), a queued `acquire()` is appended at the tail, and over
any sequence of acquire / timer / reset / status events on a fresh limiter,
the waiters resolved from the queue appear in strictly increasing arrival
order — across refill cycles, no later-queued waiter ever resolves before
an earlier-queued one. -/
theorem rateLimiter_fifo (rpm t0 : ℚ) (events : List RLEvent) :
    (∀ s : RateLimiterState,
      (processQueue s).2 ++ (processQueue s).1.queue = s.queue)
    ∧ (∀ (s : RateLimiterState) (now : ℚ) (w : Nat),
        (acquire s now w).1 = .queued →
        (acquire s now w).2.queue = s.queue ++ [w])
    ∧ (resolvedIds (rlRun (RateLimiter.make rpm t0) 0 events).2.2).Pairwise
        (· < ·) := by
  refine ⟨fun s => processQueueAux_split s.queue s.tokens, fun s now w h => ?_, ?_⟩
  · unfold acquire at h ⊢
    split at h
    · exact absurd h (by simp)
    · rename_i hcond
      rw [if_neg hcond]
      rfl
  · exact (rlRun_resolved_sorted events (RateLimiter.make rpm t0) 0
      List.Pairwise.nil (fun w hw => absurd hw (List.not_mem_nil w))).1

/-- Witness for C4: an `acquire()` on an empty bucket is appended at the
tail of the existing queue. -/
theorem rateLimiter_fifo_witness :
    (acquire
      { tokens := 0, maxTokens := 1, refillRate := 1 / 60000, lastRefill := 0,
        queue := [3] } 0 5).2.queue = [3] ++ [5] :=
  (rateLimiter_fifo 1 0 []).2.1
    { tokens := 0, maxTokens := 1, refillRate := 1 / 60000, lastRefill := 0,
      queue := [3] } 0 5 (by
    have htok : (refillTokens
        { tokens := 0, maxTokens := 1, refillRate := 1 / 60000, lastRefill := 0,
          queue := [3] } 0).tokens = 0 := by
      show min (1 : ℚ) (0 + (0 - 0) * (1 / 60000)) = 0
      have harg : (0 : ℚ) + (0 - 0) * (1 / 60000) = 0 := by norm_num
      rw [harg]
      exact min_eq_right (by norm_num)
    unfold acquire
    simp only [htok]
    rw [if_neg (by norm_num : ¬ (1 : ℚ) ≤ 0)])

end RedditMcp
